import Mathlib

/-!
Shallow embedding of the conversation-state and booking-integrity core of the
voice appointment agent: the slot calendar, the appointment store contract
(`core/database.py`), the conversation tracker and summary generator
(`core/summary_service.py`), and the session controller's tools
(`agent/tools.py`).

Modelling conventions:
* MongoDB `ObjectId`s are abstracted as `Nat`; `datetime` instants as `Nat`.
* External, nondeterministic dependencies (dateparser normalization, strftime
  formatting, the wall clock, the Gemini summarizer outcome) are parameters of
  the model (`Env`, `GenaiOutcome`), never re-implemented.
* Store calls made by a tool are recorded in an operation log (`StoreOp`), so
  that "does not query the store" / "performs no conflict check" claims are
  statable.  UI/telemetry side effects (data-channel events, `last_tool_call`,
  spoken messages) are outside the model; each tool's `resp` field is the
  message it produces for the caller.
-/

namespace VoiceAgent

/-! ### Slot calendar (`agent/tools.py` lines 23-44) -/

/-- Mock calendar for February 2026 — slots available for booking
(`MOCK_CALENDAR_2026_FEB`). -/
def MOCK_CALENDAR_2026_FEB : List (String × List String) :=
  [ ("2026-02-05", ["12:00", "15:00", "17:00", "18:00", "19:00"]),
    ("2026-02-06", ["12:00", "15:00", "17:00", "18:00"]),
    ("2026-02-07", ["15:00", "17:00", "18:00", "19:00"]),
    ("2026-02-08", ["12:00", "15:00", "19:00"]),
    ("2026-02-09", []),
    ("2026-02-10", ["12:00", "15:00", "17:00", "18:00", "19:00"]),
    ("2026-02-11", ["12:00", "15:00", "17:00", "18:00", "19:00"]),
    ("2026-02-12", ["12:00", "15:00", "17:00", "18:00"]),
    ("2026-02-13", ["15:00", "17:00", "19:00"]),
    ("2026-02-14", ["12:00", "18:00", "19:00"]),
    ("2026-02-15", []),
    ("2026-02-16", ["12:00", "15:00", "17:00", "18:00", "19:00"]),
    ("2026-02-17", ["12:00", "15:00", "17:00", "18:00", "19:00"]),
    ("2026-02-18", ["12:00", "15:00", "17:00", "18:00", "19:00"]),
    ("2026-02-19", ["12:00", "15:00", "18:00"]),
    ("2026-02-20", ["15:00", "17:00", "18:00", "19:00"]) ]

/-- Default slots when date not in calendar (`DEFAULT_SLOTS`). -/
def DEFAULT_SLOTS : List String := ["12:00", "15:00", "17:00", "18:00", "19:00"]

/-- `VoiceAppointmentAgent._get_available_slots_for_date`:
`MOCK_CALENDAR_2026_FEB.get(date, DEFAULT_SLOTS)`. -/
def get_available_slots_for_date (date : String) : List String :=
  (MOCK_CALENDAR_2026_FEB.lookup date).getD DEFAULT_SLOTS

/-- A `{"date": ..., "time": ...}` slot dictionary as produced by
`_allowed_slots_for_date`. -/
structure CalSlot where
  date : String
  time : String
  deriving Repr, DecidableEq

/-- `VoiceAppointmentAgent._is_allowed_slot`. -/
def is_allowed_slot (date time : String) : Bool :=
  (get_available_slots_for_date date).contains time

/-- Python's `sep.join(parts)` on a list of strings, as a structural
recursion. -/
def join_with (sep : String) : List String → String
  | [] => ""
  | [a] => a
  | a :: b :: r => a ++ sep ++ join_with sep (b :: r)

/-! ### Conversation tracker (`core/summary_service.py` lines 20-107).
Event timestamps are not modelled (no claim mentions them); event `details`
dictionaries are kept as string-keyed association lists. -/

/-- `ConversationEvent` (timestamp omitted). -/
structure ConversationEvent where
  eventType : String
  details : List (String × String)
  deriving Repr, DecidableEq

/-- Entry of `ConversationTracker.appointments_booked` as pushed by
`book_appointment` (a `{date, time, purpose}` dict). -/
structure BookedInfo where
  date : String
  time : String
  purpose : String
  deriving Repr, DecidableEq

/-- The `changes` dict passed to `track_appointment_modified`. -/
structure ModChanges where
  date : Option String
  time : Option String
  purpose : Option String
  deriving Repr, DecidableEq

/-- Entry of `ConversationTracker.appointments_modified` (timestamp omitted). -/
structure ModRecord where
  appointmentId : String
  changes : ModChanges
  deriving Repr, DecidableEq

/-- An appointment document as stored in the `appointments` collection.
`ObjectId` is abstracted as `Nat`, the combined `datetime` instant as `Nat`. -/
structure Appointment where
  id : Nat
  userId : Nat
  date : String
  time : String
  dt : Nat
  purpose : String
  status : String
  updatedAt : Option Nat := none
  deriving Repr, DecidableEq

/-- `ConversationTracker` (`questions_asked` kept for completeness;
`start_time`/`end_time` are `Nat` instants). -/
structure ConversationTracker where
  conversationId : Option String := none
  userId : Option Nat := none
  userPhone : Option String := none
  userName : Option String := none
  userPreferences : List String := []
  events : List ConversationEvent := []
  appointmentsBooked : List BookedInfo := []
  appointmentsViewed : List Appointment := []
  appointmentsModified : List ModRecord := []
  appointmentsCancelled : List String := []
  questionsAsked : List String := []
  concernsRaised : List String := []
  startTime : Nat := 0
  endTime : Option Nat := none
  deriving Repr, DecidableEq

namespace ConversationTracker

/-- `ConversationTracker.add_event`. -/
def add_event (t : ConversationTracker) (eventType : String)
    (details : List (String × String)) : ConversationTracker :=
  { t with events := t.events ++ [ConversationEvent.mk eventType details] }

/-- `ConversationTracker.track_appointment_booked`. -/
def track_appointment_booked (t : ConversationTracker) (a : BookedInfo) :
    ConversationTracker :=
  let t := { t with appointmentsBooked := t.appointmentsBooked ++ [a] }
  t.add_event "appointment_booked"
    [("date", a.date), ("time", a.time), ("purpose", a.purpose)]

/-- `ConversationTracker.track_appointment_viewed` (appends to the viewed list
and records an `appointments_viewed` event carrying the count). -/
def track_appointment_viewed (t : ConversationTracker) (appts : List Appointment) :
    ConversationTracker :=
  let t := { t with appointmentsViewed := t.appointmentsViewed ++ appts }
  t.add_event "appointments_viewed" [("count", toString appts.length)]

/-- `ConversationTracker.track_appointment_modified`. -/
def track_appointment_modified (t : ConversationTracker) (appointmentId : String)
    (changes : ModChanges) : ConversationTracker :=
  let t := { t with
    appointmentsModified := t.appointmentsModified ++ [ModRecord.mk appointmentId changes] }
  t.add_event "appointment_modified" [("appointment_id", appointmentId)]

/-- `ConversationTracker.track_appointment_cancelled`. -/
def track_appointment_cancelled (t : ConversationTracker) (appointmentId : String) :
    ConversationTracker :=
  let t := { t with appointmentsCancelled := t.appointmentsCancelled ++ [appointmentId] }
  t.add_event "appointment_cancelled" [("appointment_id", appointmentId)]

/-- `ConversationTracker.get_duration_minutes` at wall-clock instant `now`
(seconds): `int((end - start)/60)` with `end = end_time or now`. -/
def get_duration_minutes (t : ConversationTracker) (now : Nat) : Nat :=
  ((t.endTime.getD now) - t.startTime) / 60

end ConversationTracker

/-! ### Summary generator (`core/summary_service.py` lines 110-379) -/

/-- Entry of the `appointments_discussed` list of a summary. -/
structure DiscussedAppointment where
  date : String
  time : String
  purpose : String
  status : String
  deriving Repr, DecidableEq

/-- The dictionary returned by `SummaryGenerator.generate_summary`. -/
structure Summary where
  conversationId : Option String
  userId : Option Nat
  userPhone : Option String
  userName : Option String
  conversationDate : Nat
  durationMinutes : Nat
  appointmentsDiscussed : List DiscussedAppointment
  userPreferences : List String
  summaryText : String
  eventsCount : Nat
  deriving Repr, DecidableEq

namespace SummaryGenerator

/-- Opening clause of `_generate_summary_text`: Python truthiness of
`tracker.user_name` (non-`None`, non-empty) and the `!= "User"` test. -/
def opening_clause (t : ConversationTracker) : String :=
  match t.userName with
  | some n => if n ≠ "" ∧ n ≠ "User" then "Spoke with " ++ n
              else "Completed appointment conversation"
  | none => "Completed appointment conversation"

/-- `SummaryGenerator._generate_summary_text`. -/
def generate_summary_text (t : ConversationTracker) : String :=
  let parts : List String := [opening_clause t]
  let parts := parts ++ t.appointmentsBooked.map (fun apt =>
    "Successfully booked a " ++ apt.purpose ++ " for " ++ apt.date ++
      " at " ++ apt.time)
  let parts := parts ++
    (if t.appointmentsModified ≠ [] then
      (if t.appointmentsModified.length = 1 then
        ["Rescheduled an existing appointment"]
      else ["Rescheduled " ++ toString t.appointmentsModified.length ++
            " appointments"])
     else [])
  let parts := parts ++
    (if t.appointmentsCancelled ≠ [] then
      (if t.appointmentsCancelled.length = 1 then ["Cancelled an appointment"]
       else ["Cancelled " ++ toString t.appointmentsCancelled.length ++
             " appointments"])
     else [])
  let parts := parts ++
    (if t.appointmentsViewed ≠ [] ∧
        ¬(t.appointmentsBooked ≠ [] ∨ t.appointmentsModified ≠ [] ∨
          t.appointmentsCancelled ≠ []) then
      (if t.appointmentsViewed.length = 1 then
        ["Reviewed their upcoming appointment"]
      else ["Reviewed " ++ toString t.appointmentsViewed.length ++
            " upcoming appointments"])
     else [])
  let parts := parts ++
    (if t.userPreferences ≠ [] then
      ["Noted preferences: " ++ join_with ", " t.userPreferences]
     else [])
  let parts := parts ++
    (if t.concernsRaised ≠ [] then
      ["Addressed " ++ toString t.concernsRaised.length ++ " concern(s)"]
     else [])
  let parts := if parts.length ≤ 1 then
      parts ++ ["Discussed appointment options and availability"]
    else parts
  join_with ". " parts ++ "."

/-- `SummaryGenerator.generate_summary` evaluated at wall-clock instant `now`
(the code first sets `tracker.end_time = utcnow()` and then derives every
field from the tracker). -/
def generate_summary (now : Nat) (t0 : ConversationTracker) : Summary :=
  let t := { t0 with endTime := some now }
  let bookedEntries := t.appointmentsBooked.map (fun apt =>
    DiscussedAppointment.mk apt.date apt.time apt.purpose "Booked")
  let modifiedEntries := t.appointmentsModified.map (fun m =>
    DiscussedAppointment.mk ((m.changes.date).getD "Modified")
      ((m.changes.time).getD "") ((m.changes.purpose).getD "Modified appointment")
      "Rescheduled")
  let cancelledEntries := t.appointmentsCancelled.map (fun _ =>
    DiscussedAppointment.mk "Cancelled" "" "Cancelled appointment" "Cancelled")
  { conversationId := t.conversationId
    userId := t.userId
    userPhone := t.userPhone
    userName := t.userName
    conversationDate := t.startTime
    durationMinutes := t.get_duration_minutes now
    appointmentsDiscussed := bookedEntries ++ modifiedEntries ++ cancelledEntries
    userPreferences := t.userPreferences
    summaryText := generate_summary_text t
    eventsCount := t.events.length }

/-- Outcome of the external Gemini summarization dependency as observed by
`generate_text_summary_from_messages`: client unavailable, the underlying call
raised, or the call returned `response.text` (possibly empty/None, folded into
`success ""`). -/
inductive GenaiOutcome where
  | unavailable
  | failure
  | success (text : String)
  deriving Repr, DecidableEq

/-- A `{role, content}` message dict. -/
structure Msg where
  role : String
  content : String
  deriving Repr, DecidableEq

/-- `SummaryGenerator.generate_text_summary_from_messages`: total — every
internal exception is caught and converted to the template string; on success
returns `response.text.strip()` when `response.text` is truthy. -/
def generate_text_summary_from_messages (g : GenaiOutcome) (_messages : List Msg) :
    String :=
  match g with
  | .unavailable => "Appointment consultation completed."
  | .failure => "Appointment consultation completed."
  | .success text =>
      if text = "" then "Appointment consultation completed." else text.trim

/-- `SummaryGenerator.generate_frontend_summary`: builds the deterministic
summary, then, if messages were provided, races the AI summarization against
the timeout.  `timedOut = true` models `asyncio.wait_for` raising
`TimeoutError`; any failure inside the summarization call itself is part of
`g` (the inner function never raises). -/
def generate_frontend_summary (now : Nat) (t : ConversationTracker)
    (messages : List Msg) (timedOut : Bool) (g : GenaiOutcome) : Summary :=
  let summaryData := generate_summary now t
  if messages ≠ [] then
    if timedOut then summaryData
    else { summaryData with
           summaryText := generate_text_summary_from_messages g messages }
  else summaryData

end SummaryGenerator

/-! ### Appointment store (`core/database.py`).
Connectivity failures (`StoreError`) are outside the model: every tool claim
here concerns the success path, and every tool catches store exceptions and
degrades to an apology. -/

/-- A user document (`users` collection). -/
structure User where
  id : Nat
  phone : String
  name : Option String
  deriving Repr, DecidableEq

/-- The document database state. Fresh `ObjectId`s are modelled as counters. -/
structure DB where
  users : List User := []
  nextUserId : Nat := 0
  appointments : List Appointment := []
  nextApptId : Nat := 0
  summaries : List Summary := []
  deriving Repr, DecidableEq

/-- Insertion step for the store's `datetime`-descending sort. -/
def insert_by_dt_desc (a : Appointment) : List Appointment → List Appointment
  | [] => [a]
  | b :: r => if b.dt < a.dt then a :: b :: r else b :: insert_by_dt_desc a r

/-- The store's `.sort("datetime", -1)` ordering on a result set, modelled as
a structural insertion sort (MongoDB guarantees only the ordering, not
stability). -/
def sort_by_dt_desc : List Appointment → List Appointment
  | [] => []
  | a :: r => insert_by_dt_desc a (sort_by_dt_desc r)

namespace DB

/-- `DatabaseManager.get_user_by_phone`. -/
def get_user_by_phone (db : DB) (phone : String) : Option User :=
  db.users.find? (fun u => u.phone == phone)

/-- `DatabaseManager.create_user` (insert, returning the fresh id). -/
def create_user (db : DB) (phone : String) (name : Option String) : DB × Nat :=
  ({ db with users := db.users ++ [User.mk db.nextUserId phone name],
             nextUserId := db.nextUserId + 1 }, db.nextUserId)

/-- `DatabaseManager.update_user` restricted to the `{"name": ...}` update
issued by `set_user_name`. -/
def update_user_name (db : DB) (userId : Nat) (name : String) : DB :=
  { db with users := db.users.map (fun u =>
      if u.id == userId then { u with name := some name } else u) }

/-- `DatabaseManager.create_appointment` (insert, returning the fresh id). -/
def create_appointment (db : DB) (a : Appointment) : DB × Nat :=
  ({ db with appointments := db.appointments ++ [a],
             nextApptId := db.nextApptId + 1 }, a.id)

/-- `DatabaseManager.get_appointment_by_id`: scoped by owner. -/
def get_appointment_by_id (db : DB) (appointmentId userId : Nat) :
    Option Appointment :=
  db.appointments.find? (fun a => a.id == appointmentId && a.userId == userId)

/-- `DatabaseManager.get_appointment_by_datetime`: scoped by owner, excluding
cancelled records. -/
def get_appointment_by_datetime (db : DB) (userId : Nat) (date time : String) :
    Option Appointment :=
  db.appointments.find? (fun a =>
    a.userId == userId && a.date == date && a.time == time &&
      a.status != "cancelled")

/-- `DatabaseManager.get_user_appointments`: all appointments of the user,
sorted by `datetime` descending, limited (default 50). -/
def get_user_appointments (db : DB) (userId : Nat) (limit : Nat := 50) :
    List Appointment :=
  (sort_by_dt_desc (db.appointments.filter (fun a => a.userId == userId))).take limit

/-- `DatabaseManager.get_booked_slots`: the `"date time"` strings of all
non-cancelled appointments on `date` — the sole conflict-detection source. -/
def get_booked_slots (db : DB) (date : String) : List String :=
  (db.appointments.filter (fun a => a.date == date && a.status != "cancelled")).map
    (fun a => a.date ++ " " ++ a.time)

/-- `get_booked_slots` as called with a possibly-`None` date
(`fetch_slots` can pass `None` when normalization fails; no stored document
has a `None` date, so the query returns the empty list). -/
def get_booked_slots_opt (db : DB) (date : Option String) : List String :=
  match date with
  | some d => db.get_booked_slots d
  | none => []

/-- The partial-update dictionaries `modify_appointment` passes to
`DatabaseManager.update_appointment`. -/
structure ApptUpdates where
  date : Option String := none
  time : Option String := none
  dt : Option Nat := none
  purpose : Option String := none
  deriving Repr, DecidableEq

/-- Application of an update dictionary to one appointment document
(`update_appointment` always stamps `updated_at`). -/
def applyUpdates (a : Appointment) (u : ApptUpdates) (now : Nat) : Appointment :=
  { a with date := u.date.getD a.date, time := u.time.getD a.time,
           dt := u.dt.getD a.dt, purpose := u.purpose.getD a.purpose,
           updatedAt := some now }

/-- `DatabaseManager.update_appointment`. -/
def update_appointment (db : DB) (appointmentId : Nat) (u : ApptUpdates)
    (now : Nat) : DB :=
  { db with appointments := db.appointments.map (fun a =>
      if a.id == appointmentId then applyUpdates a u now else a) }

/-- `DatabaseManager.update_appointment_status`. -/
def update_appointment_status (db : DB) (appointmentId : Nat) (status : String)
    (now : Nat) : DB :=
  { db with appointments := db.appointments.map (fun a =>
      if a.id == appointmentId then { a with status := status, updatedAt := some now }
      else a) }

/-- `DatabaseManager.save_conversation_summary`. -/
def save_conversation_summary (db : DB) (s : Summary) : DB :=
  { db with summaries := db.summaries ++ [s] }

end DB

/-! ### Session controller (`agent/tools.py`). -/

/-- The session's `pending_appointment` snapshot dict set by
`book_appointment`. -/
structure PendingAppointment where
  id : Nat
  date : String
  time : String
  purpose : String
  deriving Repr, DecidableEq

/-- `UserData` — per-session state. The telemetry fields (`last_user_message`,
`last_agent_message`, `last_tool_call`) carry no behaviour and are omitted. -/
structure UserData where
  userId : Option Nat := none
  userPhone : Option String := none
  userName : Option String := none
  identified : Bool := false
  conversationId : Option String := none
  preferences : List String := []
  pendingAppointment : Option PendingAppointment := none
  tracker : ConversationTracker := {}
  deriving Repr, DecidableEq

/-- Environment of external dependencies: dateparser (`_normalize_date`,
`_normalize_time`), strftime renderings (`%A, %B %d`; `_format_time_ampm`;
`%A, %B %d at %I:%M %p`), `datetime.strptime` combination of date and time
into an instant, today/tomorrow and the wall clock. -/
structure Env where
  normalizeDate : String → Option String
  normalizeTime : String → Option String
  fmtDate : String → String
  fmtTime : String → String
  fmtDt : Nat → String
  parseDt : String → String → Nat
  tomorrow : String
  now : Nat

/-- One store call issued by a tool body (the operation log). -/
inductive StoreOp where
  | get_user_by_phone (phone : String)
  | create_user (phone : String)
  | update_user (userId : Nat)
  | create_appointment (appointmentId : Nat)
  | get_appointment_by_id (appointmentId userId : Nat)
  | get_appointment_by_datetime (userId : Nat) (date time : String)
  | get_user_appointments (userId : Nat)
  | get_booked_slots (date : Option String)
  | update_appointment (appointmentId : Nat)
  | update_appointment_status (appointmentId : Nat) (status : String)
  | save_conversation_summary
  deriving Repr, DecidableEq

/-- Result of one tool invocation: the new session state, the new store state,
the store operations performed, and the message produced. -/
structure ToolResult where
  ud : UserData
  db : DB
  ops : List StoreOp
  resp : String
  deriving Repr, DecidableEq

/-- Python truthiness of an optional string (`None` and `""` are falsy). -/
def truthy (o : Option String) : Bool := o.getD "" != ""

/-- Python rendering of a possibly-`None` string in an f-string. -/
def py_str (o : Option String) : String := o.getD "None"

/-- Phone cleaning in `identify_user`:
`"".join(filter(str.isdigit, phone_number))`. -/
def clean_phone_of (s : String) : String := String.mk (s.data.filter Char.isDigit)

/-- `VoiceAppointmentAgent._allowed_slots_for_date` (defaults to tomorrow for
a falsy date). -/
def allowed_slots_for_date (env : Env) (date : Option String) : List CalSlot :=
  let targetDate := if truthy date then date.getD "" else env.tomorrow
  (get_available_slots_for_date targetDate).map (fun t => CalSlot.mk targetDate t)

/-- `VoiceAppointmentAgent._format_slots` (12-hour rendering, comma-joined;
empty list renders as `""`). -/
def format_slots (env : Env) (slots : List CalSlot) : String :=
  join_with ", " (slots.map (fun s => env.fmtTime s.time))

/-- `identify_user` tool (lines 335-414): short-circuits when the session is
already identified with a truthy phone; otherwise cleans the phone, looks the
user up, creating one on miss, adopts the stored name (or `"User"`), marks the
session identified, and updates the tracker. -/
def identify_user (_env : Env) (ud : UserData) (db : DB) (phoneNumber : String) :
    ToolResult :=
  if ud.identified && truthy ud.userPhone then
    { ud := ud, db := db, ops := [],
      resp := "User already identified as " ++ py_str ud.userName ++
        ". Do not ask for phone again." }
  else
    let cleanPhone := clean_phone_of phoneNumber
    let afterLookup : UserData × DB × List StoreOp :=
      match db.get_user_by_phone cleanPhone with
      | some user =>
          let userName := if truthy user.name then user.name.getD "" else "User"
          let tr := { ud.tracker with
                      userId := some user.id,
                      userPhone := some cleanPhone, userName := some userName }
          let tr := tr.add_event "user_identified"
            [("returning_user", "True"), ("has_name", toString (truthy user.name))]
          ({ ud with
             userId := some user.id, userPhone := some cleanPhone,
             userName := some userName, identified := true, tracker := tr },
           db, [StoreOp.get_user_by_phone cleanPhone])
      | none =>
          let (db, newId) := db.create_user cleanPhone none
          let tr := { ud.tracker with
                      userId := some newId,
                      userPhone := some cleanPhone, userName := some "User" }
          let tr := tr.add_event "user_identified"
            [("returning_user", "False"), ("new_user_created", "True")]
          ({ ud with
             userId := some newId, userPhone := some cleanPhone,
             userName := some "User", identified := true, tracker := tr },
           db, [StoreOp.get_user_by_phone cleanPhone, StoreOp.create_user cleanPhone])
    let ud' := afterLookup.1
    let hasName := truthy ud'.userName && ud'.userName.getD "" != "User"
    let resp := if hasName then
        "User identified as " ++ ud'.userName.getD "" ++
          ". Check conversation history for pending requests. Do NOT ask for phone again."
      else
        "User identified but name is missing. Ask for name. Do NOT ask for phone again."
    { ud := ud', db := afterLookup.2.1, ops := afterLookup.2.2, resp := resp }

/-- `set_user_name` tool (lines 416-454). -/
def set_user_name (_env : Env) (ud : UserData) (db : DB) (name : String) :
    ToolResult :=
  let cleanName := name.trim
  if cleanName == "" then
    { ud := ud, db := db, ops := [],
      resp := "Sorry, I didn't catch your name. What should I call you?" }
  else
    let (db, ops) := match ud.userId with
      | some uid => (db.update_user_name uid cleanName, [StoreOp.update_user uid])
      | none => (db, [])
    let tr := { ud.tracker with userName := some cleanName }
    let tr := tr.add_event "name_saved" [("name", cleanName)]
    { ud := { ud with userName := some cleanName, tracker := tr }, db := db,
      ops := ops,
      resp := "User name set to " ++ cleanName ++
        ". Check conversation history for pending requests." }

/-- `add_user_preference` tool (lines 456-490).  For a non-empty trimmed
preference the body evaluates `self.context.user_preferences`, but `UserData`
declares the field `preferences`, not `user_preferences`; the resulting
`AttributeError` is caught by the tool's generic exception handler before
either the session list or the tracker list is touched, so the tool answers
with the apology and changes nothing. -/
def add_user_preference (ud : UserData) (db : DB) (preference : String) :
    ToolResult :=
  let cleanPref := preference.trim
  if cleanPref == "" then
    { ud := ud, db := db, ops := [],
      resp := "Sorry, I didn't catch that preference. Could you repeat it?" }
  else
    { ud := ud, db := db, ops := [],
      resp := "Sorry, I couldn't save that preference." }

/-- `fetch_slots` tool (lines 492-534).  When normalization fails the code
still queries `get_booked_slots(None)` and then raises inside
`datetime.strptime`, landing in the handler. -/
def fetch_slots (env : Env) (ud : UserData) (db : DB) (date : Option String) :
    ToolResult :=
  let normalizedDate := if truthy date then env.normalizeDate (date.getD "")
                        else some env.tomorrow
  let allowedSlots := allowed_slots_for_date env normalizedDate
  let bookedSlots := db.get_booked_slots_opt normalizedDate
  let ops := [StoreOp.get_booked_slots normalizedDate]
  let availableSlots := allowedSlots.filter (fun s =>
    !(bookedSlots.contains (py_str normalizedDate ++ " " ++ s.time)))
  match normalizedDate with
  | none => { ud := ud, db := db, ops := ops,
              resp := "Can't check slots right now. Try again?" }
  | some nd =>
      let dateStr := env.fmtDate nd
      let resp := if availableSlots.isEmpty then
          "Sorry, " ++ dateStr ++ " is fully booked. Would you like a different day?"
        else
          "On " ++ dateStr ++ ", I have " ++ format_slots env availableSlots ++
            ". Which time works for you?"
      { ud := ud, db := db, ops := ops, resp := resp }

/-- `book_appointment` tool (lines 536-699): requires identification,
normalizes date (defaulting falsy dates to tomorrow) and time, rejects slots
outside the calendar, re-checks `get_booked_slots` for the exact slot and
rejects with "taken"/"fully booked" if occupied, otherwise inserts the
appointment, snapshots it as `pending_appointment` and tracks the booking. -/
def book_appointment (env : Env) (ud : UserData) (db : DB)
    (date time purpose : String) : ToolResult :=
  match ud.userId with
  | none => { ud := ud, db := db, ops := [],
              resp := "I need your phone number first." }
  | some uid =>
    let normalizedDate := if date != "" then env.normalizeDate date
                          else some env.tomorrow
    let normalizedTime := env.normalizeTime time
    match normalizedDate, normalizedTime with
    | some nd, some nt =>
      if !(is_allowed_slot nd nt) then
        let dateStr := env.fmtDate nd
        { ud := ud, db := db, ops := [],
          resp := "On " ++ dateStr ++ ", I can do " ++
            format_slots env (allowed_slots_for_date env (some nd)) ++
            ". Which time should I book?" }
      else
        let datetimeStr := nd ++ " " ++ nt
        let bookedSlots := db.get_booked_slots nd
        let ops := [StoreOp.get_booked_slots (some nd)]
        if bookedSlots.contains datetimeStr then
          let allowedSlots := allowed_slots_for_date env (some nd)
          let availableSlots := allowedSlots.filter (fun s =>
            !(bookedSlots.contains (nd ++ " " ++ s.time)))
          let dateStr := env.fmtDate nd
          let resp := if availableSlots.isEmpty then
              "Sorry, " ++ dateStr ++
                " is fully booked. Would you like to check another day?"
            else
              "Sorry, " ++ env.fmtTime nt ++ " on " ++ dateStr ++
                " is taken. I can do " ++ format_slots env availableSlots ++
                ". Which time works?"
          { ud := ud, db := db, ops := ops, resp := resp }
        else
          let appt : Appointment :=
            { id := db.nextApptId, userId := uid, date := nd, time := nt,
              dt := env.parseDt nd nt, purpose := purpose, status := "confirmed" }
          let created := db.create_appointment appt
          let tr := ud.tracker.track_appointment_booked
            (BookedInfo.mk nd (env.fmtTime nt) purpose)
          let dateStr := env.fmtDate nd
          { ud := { ud with
              pendingAppointment := some (PendingAppointment.mk appt.id nd nt purpose),
              tracker := tr },
            db := created.1,
            ops := ops ++ [StoreOp.create_appointment appt.id],
            resp := "Perfect! You're all set for " ++ dateStr ++ " at " ++
              env.fmtTime nt ++ ". Anything else?" }
    | _, _ =>
      { ud := ud, db := db, ops := [],
        resp := "I need a valid date and time. Which time works for you: " ++
          format_slots env (allowed_slots_for_date env (some env.tomorrow)) ++ "?" }

/-- `retrieve_appointments` tool (lines 701-758): with an empty appointment
list the body returns before the tracker call; otherwise it partitions by
`datetime > now` and non-cancelled status, tracks the upcoming list, and
reports at most its first three entries. -/
def retrieve_appointments (env : Env) (ud : UserData) (db : DB) : ToolResult :=
  match ud.userId with
  | none => { ud := ud, db := db, ops := [],
              resp := "I need to identify you first. Could you please provide your phone number?" }
  | some uid =>
    let appointments := db.get_user_appointments uid
    let ops := [StoreOp.get_user_appointments uid]
    if appointments.isEmpty then
      { ud := ud, db := db, ops := ops,
        resp := "You don't have any appointments scheduled. Would you like to book one?" }
    else
      let upcoming := appointments.filter (fun a =>
        Nat.blt env.now a.dt && a.status != "cancelled")
      let tr := ud.tracker.track_appointment_viewed upcoming
      let responseParts : List String :=
        if upcoming.isEmpty then []
        else "Your upcoming appointments:" ::
          (upcoming.take 3).map (fun a => env.fmtDt a.dt ++ " for " ++ a.purpose)
      { ud := { ud with tracker := tr }, db := db, ops := ops,
        resp := join_with " " responseParts ++ ". Need to change anything?" }

/-- `cancel_appointment` tool (lines 760-844): resolves by id or by raw
(unnormalized) date+time, asks for clarification when neither is given,
no-ops on an already-cancelled target, otherwise sets the status to
cancelled and tracks the cancellation. -/
def cancel_appointment (env : Env) (ud : UserData) (db : DB)
    (appointmentId : Option Nat) (date time : Option String) : ToolResult :=
  match ud.userId with
  | none => { ud := ud, db := db, ops := [],
              resp := "I need to identify you first. Could you please provide your phone number?" }
  | some uid =>
    let resolved : Option (Option Appointment × List StoreOp) :=
      match appointmentId with
      | some aid => some (db.get_appointment_by_id aid uid,
                          [StoreOp.get_appointment_by_id aid uid])
      | none =>
          if truthy date && truthy time then
            some (db.get_appointment_by_datetime uid (date.getD "") (time.getD ""),
                  [StoreOp.get_appointment_by_datetime uid (date.getD "") (time.getD "")])
          else none
    match resolved with
    | none =>
        { ud := ud, db := db, ops := [],
          resp := "I need either the appointment ID or the date and time to cancel an appointment." }
    | some (none, ops) =>
        { ud := ud, db := db, ops := ops,
          resp := "I couldn't find that appointment. Could you please check the details and try again?" }
    | some (some appt, ops) =>
        if appt.status == "cancelled" then
          { ud := ud, db := db, ops := ops,
            resp := "That appointment is already cancelled." }
        else
          let db' := db.update_appointment_status appt.id "cancelled" env.now
          let tr := ud.tracker.track_appointment_cancelled (toString appt.id)
          { ud := { ud with tracker := tr }, db := db',
            ops := ops ++ [StoreOp.update_appointment_status appt.id "cancelled"],
            resp := "I've cancelled your appointment on " ++ env.fmtDt appt.dt ++
              ". Anything else?" }

/-- `modify_appointment` tool (lines 846-969): requires identification and a
resolvable non-cancelled target; when both a new date and a new time are given
it re-checks `get_booked_slots` for the raw `"date time"` string (no
normalization, no calendar check) and otherwise applies the update; a purpose
alone is applied with no availability check; with nothing given it asks what
to change. -/
def modify_appointment (env : Env) (ud : UserData) (db : DB)
    (appointmentId : Nat) (newDate newTime newPurpose : Option String) :
    ToolResult :=
  match ud.userId with
  | none => { ud := ud, db := db, ops := [],
              resp := "I need to identify you first. Could you please provide your phone number?" }
  | some uid =>
    let ops := [StoreOp.get_appointment_by_id appointmentId uid]
    match db.get_appointment_by_id appointmentId uid with
    | none =>
        { ud := ud, db := db, ops := ops,
          resp := "I couldn't find that appointment. Could you please check the appointment ID?" }
    | some appt =>
      if appt.status == "cancelled" then
        { ud := ud, db := db, ops := ops,
          resp := "That appointment is cancelled and cannot be modified. Would you like to book a new one?" }
      else
        if truthy newDate && truthy newTime then
          let nd := newDate.getD ""
          let nt := newTime.getD ""
          let datetimeStr := nd ++ " " ++ nt
          let bookedSlots := db.get_booked_slots nd
          let ops := ops ++ [StoreOp.get_booked_slots (some nd)]
          if bookedSlots.contains datetimeStr then
            { ud := ud, db := db, ops := ops,
              resp := "Sorry, " ++ nt ++ " on " ++ nd ++
                " is already booked. Please choose a different time." }
          else
            let upd : DB.ApptUpdates :=
              { date := some nd, time := some nt, dt := some (env.parseDt nd nt),
                purpose := if truthy newPurpose then newPurpose else none }
            let db' := db.update_appointment appt.id upd env.now
            let tr := ud.tracker.track_appointment_modified (toString appt.id)
              (ModChanges.mk upd.date upd.time upd.purpose)
            { ud := { ud with tracker := tr }, db := db',
              ops := ops ++ [StoreOp.update_appointment appt.id],
              resp := "Updated! Your appointment is now " ++
                env.fmtDt (env.parseDt nd nt) ++ "." }
        else if truthy newPurpose then
          let upd : DB.ApptUpdates := { purpose := newPurpose }
          let db' := db.update_appointment appt.id upd env.now
          let tr := ud.tracker.track_appointment_modified (toString appt.id)
            (ModChanges.mk none none newPurpose)
          { ud := { ud with tracker := tr }, db := db',
            ops := ops ++ [StoreOp.update_appointment appt.id],
            resp := "Updated your appointment purpose to " ++ newPurpose.getD "" ++ "." }
        else
          { ud := ud, db := db, ops := ops,
            resp := "What would you like to change about your appointment? The date, time, or purpose?" }

/-- `end_conversation` tool (lines 971-1005): seals the tracker via
`generate_summary`, persists the summary when a user id is known, and closes
with the fixed message. -/
def end_conversation (env : Env) (ud : UserData) (db : DB) : ToolResult :=
  let summaryData := SummaryGenerator.generate_summary env.now ud.tracker
  let (db', ops) := match ud.userId with
    | some _ => (db.save_conversation_summary summaryData,
                 [StoreOp.save_conversation_summary])
    | none => (db, ([] : List StoreOp))
  { ud := { ud with tracker := { ud.tracker with endTime := some env.now } },
    db := db', ops := ops,
    resp := "Thank you for using our appointment booking service! Have a great day!" }

/-! ### Concrete fixtures used by the witnesses -/

/-- Concrete environment: normalization is the identity, date/time rendering
is the identity, instant rendering is constant, the clock reads 0 and
tomorrow is 2026-02-05. -/
def env0 : Env :=
  { normalizeDate := fun s => some s
    normalizeTime := fun s => some s
    fmtDate := fun s => s
    fmtTime := fun s => s
    fmtDt := fun _ => "<datetime>"
    parseDt := fun _ _ => 0
    tomorrow := "2026-02-05"
    now := 0 }

/-- A confirmed appointment on an in-calendar slot. -/
def apptOne : Appointment :=
  { id := 0, userId := 0, date := "2026-02-05", time := "15:00", dt := 100,
    purpose := "checkup", status := "confirmed" }

/-- A store holding exactly `apptOne`. -/
def dbOne : DB := { appointments := [apptOne], nextApptId := 1 }

/-- An identified session for user 0. -/
def udOne : UserData :=
  { userId := some 0, userPhone := some "5551234567", userName := some "Alice",
    identified := true }

/-! ### Helper lemmas -/

/-- Association-list lookup misses exactly the absent keys. -/
theorem lookup_eq_none_of_not_mem_keys {α β : Type} [BEq α] [LawfulBEq α]
    (l : List (α × β)) (d : α) (h : d ∉ l.map Prod.fst) : l.lookup d = none := by
  induction l with
  | nil => rfl
  | cons p r ih =>
    obtain ⟨k, v⟩ := p
    simp only [List.map, List.mem_cons] at h
    push_neg at h
    simp only [List.lookup]
    have hk : (d == k) = false := by simpa using h.1
    rw [hk]
    exact ih h.2

/-- Association-list lookup over distinct keys finds each stored entry. -/
theorem lookup_eq_some_of_mem {α β : Type} [BEq α] [LawfulBEq α]
    (l : List (α × β)) (d : α) (v : β) (hnd : (l.map Prod.fst).Nodup)
    (h : (d, v) ∈ l) : l.lookup d = some v := by
  induction l with
  | nil => simp at h
  | cons p r ih =>
    obtain ⟨k, w⟩ := p
    simp only [List.map, List.nodup_cons] at hnd
    simp only [List.lookup]
    rcases List.mem_cons.mp h with heq | hmem
    · obtain ⟨rfl, rfl⟩ := Prod.mk.injEq .. ▸ heq
      simp
    · have hk : (d == k) = false := by
        have : d ∈ r.map Prod.fst := List.mem_map.mpr ⟨(d, v), hmem, rfl⟩
        have : k ≠ d := fun hkd => hnd.1 (hkd ▸ this)
        simpa using fun hdk => this hdk.symm
      rw [hk]
      exact ih hnd.2 hmem

/-! ### C2 — slot calendar: override entries vs. default list -/

/-- C2: for every date not present in the override calendar the slot-calendar
lookup returns the fixed default list `DEFAULT_SLOTS`; for every entry of the
override calendar it returns exactly that entry's list, including the empty
list for closed days. -/
theorem slot_calendar_override_or_default :
    (∀ d : String, d ∉ MOCK_CALENDAR_2026_FEB.map Prod.fst →
       get_available_slots_for_date d = DEFAULT_SLOTS) ∧
    (∀ d l, (d, l) ∈ MOCK_CALENDAR_2026_FEB →
       get_available_slots_for_date d = l) := by
  constructor
  · intro d h
    unfold get_available_slots_for_date
    rw [lookup_eq_none_of_not_mem_keys _ _ h]
    rfl
  · intro d l h
    unfold get_available_slots_for_date
    rw [lookup_eq_some_of_mem _ _ _ (by decide) h]
    rfl

/-- Witness for C2: a date off the calendar gets the default list; the closed
Sunday 2026-02-09 gets its (empty) override entry. -/
theorem slot_calendar_override_or_default_witness :
    ("2026-03-01" ∉ MOCK_CALENDAR_2026_FEB.map Prod.fst ∧
       get_available_slots_for_date "2026-03-01" = DEFAULT_SLOTS) ∧
    (("2026-02-09", ([] : List String)) ∈ MOCK_CALENDAR_2026_FEB ∧
       get_available_slots_for_date "2026-02-09" = []) :=
  ⟨⟨by decide, slot_calendar_override_or_default.1 "2026-03-01" (by decide)⟩,
   ⟨by decide, slot_calendar_override_or_default.2 "2026-02-09" [] (by decide)⟩⟩

/-! ### C4 — identify_user is idempotent within a session -/

/-- C4: once a session is identified with a (truthy) phone on record, any
further `identify_user` call — same or different phone — answers "already
identified", leaves the whole session state (in particular user id, phone and
name) unchanged, performs no store operation, and leaves the store unchanged. -/
theorem identify_user_idempotent :
    ∀ env ud db phone p, ud.identified = true → ud.userPhone = some p → p ≠ "" →
      (identify_user env ud db phone).ud = ud ∧
      (identify_user env ud db phone).db = db ∧
      (identify_user env ud db phone).ops = [] ∧
      (identify_user env ud db phone).resp =
        "User already identified as " ++ py_str ud.userName ++
          ". Do not ask for phone again." := by
  intro env ud db phone p hid hp hne
  have ht : truthy ud.userPhone = true := by
    simp [truthy, hp, hne]
  simp [identify_user, hid, ht]

/-- Witness for C4: a second identification attempt with a different phone on
an already-identified session is a no-op. -/
theorem identify_user_idempotent_witness :
    udOne.identified = true ∧ udOne.userPhone = some "5551234567" ∧
    (let r := identify_user env0 udOne dbOne "888"
     r.ud = udOne ∧ r.db = dbOne ∧ r.ops = [] ∧
     r.resp = "User already identified as Alice. Do not ask for phone again.") :=
  ⟨rfl, rfl,
   identify_user_idempotent env0 udOne dbOne "888" "5551234567" rfl rfl (by decide)⟩

/-! ### C8 — add_user_preference (code bug: the lists are never updated) -/

/-- C8 (code bug): `add_user_preference` never updates the session preference
list, the tracker preference list, or the store — for every input it leaves
everything unchanged and answers with one of its two apologies, because for a
non-empty preference the body's `self.context.user_preferences` attribute
access raises (the `UserData` field is named `preferences`) and the generic
handler swallows the error. -/
theorem add_user_preference_never_appends :
    ∀ ud db preference,
      (add_user_preference ud db preference).ud = ud ∧
      (add_user_preference ud db preference).db = db ∧
      (add_user_preference ud db preference).ops = [] ∧
      ((add_user_preference ud db preference).resp =
          "Sorry, I didn't catch that preference. Could you repeat it?" ∨
       (add_user_preference ud db preference).resp =
          "Sorry, I couldn't save that preference.") := by
  intro ud db preference
  unfold add_user_preference
  by_cases h : preference.trim == ""
  · simp [h]
  · simp [h]

/-! ### C6 — generate_summary always yields a non-empty text with a fallback -/

/-- Every generated summary text is some prefix followed by the final
period. -/
theorem generate_summary_text_ends_period (t : ConversationTracker) :
    ∃ s, SummaryGenerator.generate_summary_text t = s ++ "." := ⟨_, rfl⟩

/-- With no booked/modified/cancelled/viewed appointments, no preferences and
no concerns, the summary text is the opening clause plus the generic
fallback clause. -/
theorem generate_summary_text_fallback (t : ConversationTracker)
    (h1 : t.appointmentsBooked = []) (h2 : t.appointmentsModified = [])
    (h3 : t.appointmentsCancelled = []) (h4 : t.appointmentsViewed = [])
    (h5 : t.userPreferences = []) (h6 : t.concernsRaised = []) :
    SummaryGenerator.generate_summary_text t =
      SummaryGenerator.opening_clause t ++
        ". Discussed appointment options and availability." := by
  unfold SummaryGenerator.generate_summary_text
  simp only [h1, h2, h3, h4, h5, h6, List.map_nil, List.append_nil, ne_eq,
    not_true_eq_false, if_false, List.length_nil]
  norm_num [join_with]
  rw [String.append_assoc, String.append_assoc]
  congr 1

/-- C6: `generate_summary` always succeeds with a non-empty `summary_text`;
when the tracker recorded no booked, modified, cancelled or viewed
appointments (and no preferences or concerns), the text is the opening clause
followed by the generic "Discussed appointment options and availability"
fallback clause. -/
theorem generate_summary_nonempty_with_fallback :
    (∀ now t, 0 < (SummaryGenerator.generate_summary now t).summaryText.length) ∧
    (∀ now t, t.appointmentsBooked = [] → t.appointmentsModified = [] →
       t.appointmentsCancelled = [] → t.appointmentsViewed = [] →
       t.userPreferences = [] → t.concernsRaised = [] →
       (SummaryGenerator.generate_summary now t).summaryText =
         SummaryGenerator.opening_clause t ++
           ". Discussed appointment options and availability.") := by
  constructor
  · intro now t
    have hs : (SummaryGenerator.generate_summary now t).summaryText
        = SummaryGenerator.generate_summary_text { t with endTime := some now } := rfl
    obtain ⟨s, hsp⟩ := generate_summary_text_ends_period { t with endTime := some now }
    rw [hs, hsp]
    simp [String.length_append]
    exact Or.inr (by decide)
  · intro now t h1 h2 h3 h4 h5 h6
    have hs : (SummaryGenerator.generate_summary now t).summaryText
        = SummaryGenerator.generate_summary_text { t with endTime := some now } := rfl
    have hop : SummaryGenerator.opening_clause { t with endTime := some now }
        = SummaryGenerator.opening_clause t := rfl
    rw [hs,
      generate_summary_text_fallback { t with endTime := some now } h1 h2 h3 h4 h5 h6,
      hop]

/-- Witness for C6 on the empty tracker: non-empty text equal to the two
fallback clauses. -/
theorem generate_summary_nonempty_with_fallback_witness :
    0 < (SummaryGenerator.generate_summary 0 {}).summaryText.length ∧
    (SummaryGenerator.generate_summary 0 {}).summaryText =
      SummaryGenerator.opening_clause {} ++
        ". Discussed appointment options and availability." :=
  ⟨generate_summary_nonempty_with_fallback.1 0 {},
   generate_summary_nonempty_with_fallback.2 0 {} rfl rfl rfl rfl rfl rfl⟩

/-! ### C9 — AI-augmented summary vs. the deterministic text -/

/-- C9 counterexample: with messages present, no timeout, and the
summarization call failing, the returned `summary_text` is the summarizer's
internal template — not the deterministic text, which is different; so a
failure of the summarization call does not leave the deterministic text
unchanged. -/
theorem frontend_summary_failure_replaces_text :
    (SummaryGenerator.generate_frontend_summary 0 {}
        [SummaryGenerator.Msg.mk "user" "hi"] false
        SummaryGenerator.GenaiOutcome.failure).summaryText =
      "Appointment consultation completed." ∧
    (SummaryGenerator.generate_summary 0 {}).summaryText =
      "Completed appointment conversation. Discussed appointment options and availability." ∧
    ("Appointment consultation completed." : String) ≠
      "Completed appointment conversation. Discussed appointment options and availability." := by
  refine ⟨by decide, by decide, by decide⟩

/-- C9 amended: on timeout (or with no messages) the deterministic summary is
returned unchanged; without a timeout the summarizer's result always replaces
the text — the stripped model output on success, and the fixed template
"Appointment consultation completed." when the call fails or the client is
unavailable; the function is total, so nothing propagates to the caller. -/
theorem frontend_summary_timeout_retains_deterministic :
    ∀ now t messages timedOut g,
      (timedOut = true →
         SummaryGenerator.generate_frontend_summary now t messages timedOut g =
           SummaryGenerator.generate_summary now t) ∧
      (messages = [] →
         SummaryGenerator.generate_frontend_summary now t messages timedOut g =
           SummaryGenerator.generate_summary now t) ∧
      (timedOut = false → messages ≠ [] →
         (g = SummaryGenerator.GenaiOutcome.failure ∨
            g = SummaryGenerator.GenaiOutcome.unavailable →
            (SummaryGenerator.generate_frontend_summary now t messages
              timedOut g).summaryText = "Appointment consultation completed.") ∧
         (∀ s, g = SummaryGenerator.GenaiOutcome.success s → s ≠ "" →
            (SummaryGenerator.generate_frontend_summary now t messages
              timedOut g).summaryText = s.trim) ∧
         (SummaryGenerator.generate_frontend_summary now t messages
             timedOut g).summaryText =
           SummaryGenerator.generate_text_summary_from_messages g messages) := by
  intro now t messages timedOut g
  refine ⟨?_, ?_, ?_⟩
  · intro ht
    subst ht
    by_cases hm : messages = [] <;>
      simp [SummaryGenerator.generate_frontend_summary, hm]
  · intro hm
    subst hm
    simp [SummaryGenerator.generate_frontend_summary]
  · intro ht hm
    subst ht
    refine ⟨?_, ?_, ?_⟩
    · rintro (rfl | rfl) <;>
        simp [SummaryGenerator.generate_frontend_summary, hm,
          SummaryGenerator.generate_text_summary_from_messages]
    · rintro s rfl hs
      simp [SummaryGenerator.generate_frontend_summary, hm,
        SummaryGenerator.generate_text_summary_from_messages, hs]
    · simp [SummaryGenerator.generate_frontend_summary, hm]

/-- Witness for C9 (amended) at a concrete failing summarization without
timeout. -/
theorem frontend_summary_timeout_retains_deterministic_witness :
    (SummaryGenerator.generate_frontend_summary 0 {}
        [SummaryGenerator.Msg.mk "user" "hi"] false
        SummaryGenerator.GenaiOutcome.failure).summaryText =
      "Appointment consultation completed." :=
  ((frontend_summary_timeout_retains_deterministic 0 {}
      [SummaryGenerator.Msg.mk "user" "hi"] false
      SummaryGenerator.GenaiOutcome.failure).2.2 rfl (by decide)).1 (Or.inl rfl)

/-! ### C5 — modify_appointment vs. the booking conflict rule -/

/-- C5 counterexample: moving `apptOne` to the closed Sunday 2026-02-09 at
12:00 — a slot outside the allowed calendar — is applied by
`modify_appointment` without complaint, while `book_appointment` for the very
same slot refuses to create anything; so the modification path does not apply
the same conflict rule as booking. -/
theorem modify_appointment_skips_calendar_check :
    (let r := modify_appointment env0 udOne dbOne 0 (some "2026-02-09")
        (some "12:00") none
     r.db.appointments =
       [{ apptOne with
          date := "2026-02-09", time := "12:00", dt := 0,
          updatedAt := some 0 }] ∧
     r.resp = "Updated! Your appointment is now <datetime>.") ∧
    is_allowed_slot "2026-02-09" "12:00" = false ∧
    (book_appointment env0 udOne dbOne "2026-02-09" "12:00" "checkup").db = dbOne ∧
    (book_appointment env0 udOne dbOne "2026-02-09" "12:00" "checkup").resp =
      "On 2026-02-09, I can do . Which time should I book?" := by
  refine ⟨⟨by decide, by decide⟩, by decide, by decide, by decide⟩

/-- C5 amended: with only a purpose change (no truthy new date and time)
`modify_appointment` never queries the booked-slots list (no slot-conflict or
availability check at all); with both a new date and a new time it re-checks
only the booked-slots occupancy of the raw `"date time"` string — rejecting
occupied slots like booking does — and otherwise applies the change with no
allowed-calendar check and no date/time normalization. -/
theorem modify_appointment_conflict_rule :
    ∀ env ud db aid newDate newTime newPurpose uid appt,
      ud.userId = some uid →
      db.get_appointment_by_id aid uid = some appt →
      appt.status ≠ "cancelled" →
      let r := modify_appointment env ud db aid newDate newTime newPurpose
      ((truthy newDate && truthy newTime) = false →
         ∀ d, StoreOp.get_booked_slots d ∉ r.ops) ∧
      ((truthy newDate && truthy newTime) = true →
         let nd := newDate.getD ""
         let nt := newTime.getD ""
         ((nd ++ " " ++ nt) ∈ db.get_booked_slots nd →
            r.db = db ∧ r.ud = ud ∧
            r.resp = "Sorry, " ++ nt ++ " on " ++ nd ++
              " is already booked. Please choose a different time.") ∧
         ((nd ++ " " ++ nt) ∉ db.get_booked_slots nd →
            r.db = db.update_appointment appt.id
              { date := some nd, time := some nt, dt := some (env.parseDt nd nt),
                purpose := if truthy newPurpose then newPurpose else none }
              env.now)) := by
  intro env ud db aid newDate newTime newPurpose uid appt hid hfind hstat
  have hstatB : (appt.status == "cancelled") = false := by simpa using hstat
  constructor
  · intro hdt d
    by_cases hp : truthy newPurpose = true <;>
      simp [modify_appointment, hid, hfind, hstatB, hdt, hp]
  · intro hdt
    constructor
    · intro hmem
      simp [modify_appointment, hid, hfind, hstatB, hdt, hmem]
    · intro hmem
      simp [modify_appointment, hid, hfind, hstatB, hdt, hmem]

/-- Witness for C5 (amended): a purpose-only modification issues no
booked-slots query. -/
theorem modify_appointment_conflict_rule_witness :
    StoreOp.get_booked_slots (some "2026-02-09") ∉
      (modify_appointment env0 udOne dbOne 0 none none (some "dental")).ops :=
  (modify_appointment_conflict_rule env0 udOne dbOne 0 none none (some "dental")
      0 apptOne rfl (by decide) (by decide)).1 rfl (some "2026-02-09")

/-! ### C7 — retrieve_appointments and view tracking -/

/-- C7 counterexample: for an identified user with an empty appointment list,
`retrieve_appointments` answers the "no appointments" message and leaves the
session (in particular the tracker's event log) completely unchanged — no
`appointments_viewed` event is recorded. -/
theorem retrieve_appointments_empty_list_untracked :
    let r := retrieve_appointments env0 udOne ({} : DB)
    r.ud = udOne ∧ r.ud.tracker.events = [] ∧
    r.resp = "You don't have any appointments scheduled. Would you like to book one?" := by
  refine ⟨by decide, by decide, by decide⟩

/-- C7 amended: for every identified session, when the user's appointment
list is empty the tool returns the "no appointments" message without touching
the tracker; when it is non-empty the tool appends exactly one
`appointments_viewed` event (even when the upcoming sublist is empty) and
reports at most the first three upcoming-active appointments (future
`datetime`, status not cancelled). -/
theorem retrieve_appointments_tracking :
    ∀ env ud db uid, ud.userId = some uid →
      (db.get_user_appointments uid = [] →
         (retrieve_appointments env ud db).ud = ud ∧
         (retrieve_appointments env ud db).db = db ∧
         (retrieve_appointments env ud db).resp =
           "You don't have any appointments scheduled. Would you like to book one?") ∧
      (db.get_user_appointments uid ≠ [] →
         (retrieve_appointments env ud db).ud.tracker.events =
           ud.tracker.events ++
             [ConversationEvent.mk "appointments_viewed"
               [("count", toString ((db.get_user_appointments uid).filter
                   (fun a => Nat.blt env.now a.dt && a.status != "cancelled")).length)]] ∧
         (retrieve_appointments env ud db).ud.tracker.appointmentsViewed =
           ud.tracker.appointmentsViewed ++
             (db.get_user_appointments uid).filter (fun a =>
               Nat.blt env.now a.dt && a.status != "cancelled") ∧
         (((db.get_user_appointments uid).filter (fun a =>
             Nat.blt env.now a.dt && a.status != "cancelled")).take 3).length ≤ 3 ∧
         (retrieve_appointments env ud db).resp = join_with " "
             (if ((db.get_user_appointments uid).filter (fun a =>
                  Nat.blt env.now a.dt && a.status != "cancelled")).isEmpty then []
              else "Your upcoming appointments:" ::
                (((db.get_user_appointments uid).filter (fun a =>
                    Nat.blt env.now a.dt && a.status != "cancelled")).take 3).map
                  (fun a => env.fmtDt a.dt ++ " for " ++ a.purpose)) ++
           ". Need to change anything?") := by
  intro env ud db uid hid
  constructor
  · intro h
    simp [retrieve_appointments, hid, h]
  · intro h
    have hne : (db.get_user_appointments uid).isEmpty = false := by
      cases hh : db.get_user_appointments uid with
      | nil => exact absurd hh h
      | cons x l => rfl
    refine ⟨?_, ?_, ?_, ?_⟩
    · simp [retrieve_appointments, hid, hne,
        ConversationTracker.track_appointment_viewed, ConversationTracker.add_event]
    · simp [retrieve_appointments, hid, hne,
        ConversationTracker.track_appointment_viewed, ConversationTracker.add_event]
    · exact List.length_take_le ..
    · simp [retrieve_appointments, hid, hne]

/-- Witness for C7 (amended): with one stored appointment the view is
tracked with the upcoming count. -/
theorem retrieve_appointments_tracking_witness :
    dbOne.get_user_appointments 0 ≠ [] ∧
    (retrieve_appointments env0 udOne dbOne).ud.tracker.events =
      udOne.tracker.events ++
        [ConversationEvent.mk "appointments_viewed"
          [("count", toString ((dbOne.get_user_appointments 0).filter
             (fun a => Nat.blt env0.now a.dt && a.status != "cancelled")).length)]] :=
  ⟨by decide,
   ((retrieve_appointments_tracking env0 udOne dbOne 0 rfl).2 (by decide)).1⟩

/-! ### C10 — only a successful booking touches pending_appointment -/

/-- C10: every tool other than `book_appointment` — identification, naming,
preferences, slot lookup, retrieval, cancellation, modification and ending the
conversation — returns the session's `pending_appointment` unchanged;
`book_appointment` either changes nothing in the appointments collection and
preserves `pending_appointment`, or inserts exactly one appointment and sets
`pending_appointment` to that appointment's snapshot. -/
theorem pending_appointment_frame :
    (∀ env ud db phone,
       (identify_user env ud db phone).ud.pendingAppointment = ud.pendingAppointment) ∧
    (∀ env ud db name,
       (set_user_name env ud db name).ud.pendingAppointment = ud.pendingAppointment) ∧
    (∀ ud db pref,
       (add_user_preference ud db pref).ud.pendingAppointment = ud.pendingAppointment) ∧
    (∀ env ud db date,
       (fetch_slots env ud db date).ud.pendingAppointment = ud.pendingAppointment) ∧
    (∀ env ud db,
       (retrieve_appointments env ud db).ud.pendingAppointment = ud.pendingAppointment) ∧
    (∀ env ud db aid date time,
       (cancel_appointment env ud db aid date time).ud.pendingAppointment =
         ud.pendingAppointment) ∧
    (∀ env ud db aid nd nt np,
       (modify_appointment env ud db aid nd nt np).ud.pendingAppointment =
         ud.pendingAppointment) ∧
    (∀ env ud db,
       (end_conversation env ud db).ud.pendingAppointment = ud.pendingAppointment) ∧
    (∀ env ud db date time purpose,
       let r := book_appointment env ud db date time purpose
       (r.db.appointments = db.appointments ∧
          r.ud.pendingAppointment = ud.pendingAppointment) ∨
       (∃ a, r.db.appointments = db.appointments ++ [a] ∧
          r.ud.pendingAppointment =
            some (PendingAppointment.mk a.id a.date a.time a.purpose))) := by
  refine ⟨?_, ?_, ?_, ?_, ?_, ?_, ?_, ?_, ?_⟩
  · intro env ud db phone
    unfold identify_user
    dsimp only
    split
    · rfl
    · cases db.get_user_by_phone (clean_phone_of phone) <;> rfl
  · intro env ud db name
    unfold set_user_name
    dsimp only
    repeat' split
    all_goals rfl
  · intro ud db pref
    unfold add_user_preference
    dsimp only
    repeat' split
    all_goals rfl
  · intro env ud db date
    unfold fetch_slots
    dsimp only
    repeat' split
    all_goals rfl
  · intro env ud db
    unfold retrieve_appointments
    dsimp only
    repeat' split
    all_goals rfl
  · intro env ud db aid date time
    unfold cancel_appointment
    dsimp only
    repeat' split
    all_goals rfl
  · intro env ud db aid nd nt np
    unfold modify_appointment
    dsimp only
    repeat' split
    all_goals rfl
  · intro env ud db
    unfold end_conversation
    dsimp only
  · intro env ud db date time purpose
    unfold book_appointment
    dsimp only
    repeat' split
    all_goals first
      | (left; exact ⟨rfl, rfl⟩)
      | (right; exact ⟨_, rfl, rfl⟩)

/-- Witness for C10: a concrete cancellation leaves the pending snapshot
untouched. -/
theorem pending_appointment_frame_witness :
    (cancel_appointment env0 udOne dbOne (some 0) none none).ud.pendingAppointment =
      udOne.pendingAppointment :=
  pending_appointment_frame.2.2.2.2.2.1 env0 udOne dbOne (some 0) none none

/-! ### C1 — booking conflicts and the one-active-per-slot invariant -/

/-- Left-cancellation of string concatenation. -/
theorem string_append_cancel_left (s t u : String) (h : s ++ t = s ++ u) :
    t = u := by
  have h2 : (s ++ t).data = (s ++ u).data := by rw [h]
  simp [String.data_append] at h2
  cases t; cases u
  exact congrArg String.mk h2

/-- A slot string belongs to `get_booked_slots` exactly when some stored
appointment actively occupies that (date, time) slot. -/
theorem mem_get_booked_slots (db : DB) (d t : String) :
    (d ++ " " ++ t) ∈ db.get_booked_slots d ↔
      ∃ a, a ∈ db.appointments ∧ a.date = d ∧ a.time = t ∧
        a.status ≠ "cancelled" := by
  unfold DB.get_booked_slots
  constructor
  · intro h
    obtain ⟨a, ha, heq⟩ := List.mem_map.mp h
    obtain ⟨hmem, hp⟩ := List.mem_filter.mp ha
    simp only [Bool.and_eq_true, beq_iff_eq, bne_iff_ne, ne_eq] at hp
    obtain ⟨hd, hs⟩ := hp
    have ht : a.time = t := by
      have heq2 : (a.date ++ " ") ++ a.time = (d ++ " ") ++ t := heq
      rw [hd] at heq2
      exact string_append_cancel_left _ _ _ heq2
    exact ⟨a, hmem, hd, ht, hs⟩
  · rintro ⟨a, hmem, hd, ht, hs⟩
    refine List.mem_map.mpr ⟨a, List.mem_filter.mpr ⟨hmem, ?_⟩, by rw [hd, ht]⟩
    simp [hd, hs]

/-- Number of active (non-cancelled) appointments occupying a given
(date, time) slot. -/
def active_count (db : DB) (date time : String) : Nat :=
  (db.appointments.filter (fun a =>
    a.date == date && a.time == time && a.status != "cancelled")).length

/-- The booking-integrity invariant: at most one active appointment per
(date, time) slot. -/
def at_most_one_active (db : DB) : Prop :=
  ∀ date time, active_count db date time ≤ 1

/-- Appending one appointment whose slot string is absent from the booked
list preserves the one-active-per-slot invariant. -/
theorem at_most_one_active_of_append (db db' : DB) (appt : Appointment)
    (happ : db'.appointments = db.appointments ++ [appt])
    (hfree : (appt.date ++ " " ++ appt.time) ∉ db.get_booked_slots appt.date)
    (hinv : at_most_one_active db) : at_most_one_active db' := by
  intro d t
  unfold active_count
  rw [happ, List.filter_append, List.length_append]
  by_cases hp : (appt.date == d && appt.time == t && appt.status != "cancelled") = true
  · have hp' := hp
    simp only [Bool.and_eq_true, beq_iff_eq, bne_iff_ne, ne_eq] at hp'
    obtain ⟨⟨hd, ht⟩, hs⟩ := hp'
    subst hd
    subst ht
    have hzero : (db.appointments.filter (fun a =>
        a.date == appt.date && a.time == appt.time &&
          a.status != "cancelled")).length = 0 := by
      rw [List.length_eq_zero, List.filter_eq_nil_iff]
      intro b hb hpb
      simp only [Bool.and_eq_true, beq_iff_eq, bne_iff_ne, ne_eq] at hpb
      obtain ⟨⟨hbd, hbt⟩, hbs⟩ := hpb
      exact hfree ((mem_get_booked_slots db appt.date appt.time).mpr
        ⟨b, hb, hbd, hbt, hbs⟩)
    rw [hzero]
    have hone : (List.filter (fun a => a.date == appt.date && a.time == appt.time &&
        a.status != "cancelled") [appt]).length ≤ 1 := by
      simp only [List.filter]
      split <;> simp
    simpa using hone
  · have hpf : (appt.date == d && appt.time == t && appt.status != "cancelled") = false :=
      Bool.eq_false_iff.mpr hp
    have hone : (List.filter (fun a =>
        a.date == d && a.time == t && a.status != "cancelled") [appt]).length = 0 := by
      simp only [List.filter, hpf]
      rfl
    rw [hone]
    simpa [active_count] using hinv d t

/-- C1: whenever the slot string `"date time"` is already in the store's
booked-slots list for that date (and the request passes identification,
normalization and the calendar check), `book_appointment` leaves the store
and the pending snapshot unchanged and reports a conflict — "fully booked",
or "taken" together with the remaining open options; moreover every
`book_appointment` call preserves the at-most-one-active-per-slot
invariant. -/
theorem book_appointment_conflict_no_double_booking :
    (∀ env ud db date time purpose uid nd nt,
       ud.userId = some uid →
       (if date != "" then env.normalizeDate date else some env.tomorrow) = some nd →
       env.normalizeTime time = some nt →
       is_allowed_slot nd nt = true →
       (nd ++ " " ++ nt) ∈ db.get_booked_slots nd →
       let r := book_appointment env ud db date time purpose
       r.db = db ∧ r.ud.pendingAppointment = ud.pendingAppointment ∧
       (r.resp = "Sorry, " ++ env.fmtDate nd ++
            " is fully booked. Would you like to check another day?" ∨
        r.resp = "Sorry, " ++ env.fmtTime nt ++ " on " ++ env.fmtDate nd ++
            " is taken. I can do " ++
            format_slots env ((allowed_slots_for_date env (some nd)).filter
              (fun s => !((db.get_booked_slots nd).contains (nd ++ " " ++ s.time)))) ++
            ". Which time works?")) ∧
    (∀ env ud db date time purpose, at_most_one_active db →
       at_most_one_active (book_appointment env ud db date time purpose).db) := by
  constructor
  · intro env ud db date time purpose uid nd nt hid hnd hnt hallow hmem
    have hc : ((db.get_booked_slots nd).contains (nd ++ " " ++ nt)) = true :=
      List.elem_iff.mpr hmem
    simp only [book_appointment, hid, hnd, hnt, hallow, Bool.not_true,
      Bool.false_eq_true, if_false, hc, if_true]
    refine ⟨by first | rfl | trivial, by first | rfl | trivial, ?_⟩
    by_cases hA : ((allowed_slots_for_date env (some nd)).filter
        (fun s => !((db.get_booked_slots nd).contains (nd ++ " " ++ s.time)))).isEmpty = true
    · left
      rw [if_pos hA]
    · right
      rw [if_neg hA]
  · intro env ud db date time purpose hinv
    unfold book_appointment
    dsimp only
    repeat' split
    all_goals first
      | exact hinv
      | (refine at_most_one_active_of_append db _ _ rfl ?_ hinv
         intro hm
         exact absurd (List.elem_iff.mpr hm) (by assumption))

/-- Witness for C1: re-booking the already-taken 15:00 slot on 2026-02-05
reports it as taken with the remaining options and leaves the store
unchanged; the invariant is preserved on the concrete store. -/
theorem book_appointment_conflict_no_double_booking_witness :
    (let r := book_appointment env0 udOne dbOne "2026-02-05" "15:00" "checkup"
     r.db = dbOne ∧ r.ud.pendingAppointment = udOne.pendingAppointment ∧
     (r.resp = "Sorry, " ++ env0.fmtDate "2026-02-05" ++
          " is fully booked. Would you like to check another day?" ∨
      r.resp = "Sorry, " ++ env0.fmtTime "15:00" ++ " on " ++
          env0.fmtDate "2026-02-05" ++ " is taken. I can do " ++
          format_slots env0 ((allowed_slots_for_date env0 (some "2026-02-05")).filter
            (fun s => !((dbOne.get_booked_slots "2026-02-05").contains
              ("2026-02-05" ++ " " ++ s.time)))) ++
          ". Which time works?")) ∧
    (at_most_one_active dbOne →
      at_most_one_active
        (book_appointment env0 udOne dbOne "2026-02-05" "15:00" "checkup").db) :=
  ⟨book_appointment_conflict_no_double_booking.1 env0 udOne dbOne
      "2026-02-05" "15:00" "checkup" 0 "2026-02-05" "15:00" rfl (by decide)
      rfl (by decide) (by decide),
   book_appointment_conflict_no_double_booking.2 env0 udOne dbOne
      "2026-02-05" "15:00" "checkup"⟩

/-! ### C3 — cancelling frees the slot without deleting the record -/

/-- `find?` returns the unique element satisfying the predicate. -/
theorem find_eq_some_of_unique {α : Type} (p : α → Bool) (l : List α) (a : α)
    (ha : a ∈ l) (hpa : p a = true) (huniq : ∀ b ∈ l, p b = true → b = a) :
    l.find? p = some a := by
  induction l with
  | nil => simp at ha
  | cons x r ih =>
    by_cases hx : p x = true
    · have hxa : x = a := huniq x (List.mem_cons_self x r) hx
      rw [List.find?_cons_of_pos _ hx, hxa]
    · rw [List.find?_cons_of_neg _ hx]
      rcases List.mem_cons.mp ha with rfl | hmem
      · exact absurd hpa hx
      · exact ih hmem (fun b hb hpb => huniq b (List.mem_cons_of_mem _ hb) hpb)

/-- `filter` commutes with a `map` that does not change the predicate's
verdict. -/
theorem filter_map_comm {α : Type} (f : α → α) (p : α → Bool)
    (hcomm : ∀ a, p (f a) = p a) (l : List α) :
    (l.map f).filter p = (l.filter p).map f := by
  induction l with
  | nil => rfl
  | cons x r ih =>
    by_cases hx : p x = true
    · simp [List.filter_cons, hcomm, hx, ih]
    · have hx' : p x = false := Bool.eq_false_iff.mpr hx
      simp [List.filter_cons, hcomm, hx', ih]

/-- Membership through the insertion step of the datetime sort. -/
theorem mem_insert_by_dt_desc {x a : Appointment} {l : List Appointment} :
    x ∈ insert_by_dt_desc a l ↔ x = a ∨ x ∈ l := by
  induction l with
  | nil => simp [insert_by_dt_desc]
  | cons b r ih =>
    simp only [insert_by_dt_desc]
    by_cases h : b.dt < a.dt
    · simp [h, List.mem_cons]
    · simp only [h, if_false, List.mem_cons, ih]
      tauto

/-- Sorting by datetime preserves membership. -/
theorem mem_sort_by_dt_desc {x : Appointment} {l : List Appointment} :
    x ∈ sort_by_dt_desc l ↔ x ∈ l := by
  induction l with
  | nil => simp [sort_by_dt_desc]
  | cons a r ih =>
    simp [sort_by_dt_desc, mem_insert_by_dt_desc, ih, List.mem_cons]

/-- The insertion step grows the length by one. -/
theorem length_insert_by_dt_desc (a : Appointment) (l : List Appointment) :
    (insert_by_dt_desc a l).length = l.length + 1 := by
  induction l with
  | nil => rfl
  | cons b r ih =>
    simp only [insert_by_dt_desc]
    by_cases h : b.dt < a.dt
    · simp [h]
    · simp [h, ih]

/-- Sorting by datetime preserves length. -/
theorem length_sort_by_dt_desc (l : List Appointment) :
    (sort_by_dt_desc l).length = l.length := by
  induction l with
  | nil => rfl
  | cons a r ih => simp [sort_by_dt_desc, length_insert_by_dt_desc, ih]

/-- C3: after `cancel_appointment` sets an appointment's status to cancelled
(resolving it by id for its identified owner, with document ids unique and the
appointment the sole active holder of its slot), the appointment's slot
string no longer appears in `get_booked_slots` for its date, yet its id still
appears in the list returned by `get_user_appointments` (given the user's
appointment count fits the default query limit of 50). -/
theorem cancel_appointment_frees_slot_keeps_record :
    ∀ env ud db uid a,
      ud.userId = some uid →
      a ∈ db.appointments →
      a.userId = uid →
      a.status ≠ "cancelled" →
      (∀ b ∈ db.appointments, b.id = a.id → b = a) →
      (∀ b ∈ db.appointments, b.id ≠ a.id →
         ¬(b.date = a.date ∧ b.time = a.time ∧ b.status ≠ "cancelled")) →
      (db.appointments.filter (fun x => x.userId == uid)).length ≤ 50 →
      ((a.date ++ " " ++ a.time) ∉
        (cancel_appointment env ud db (some a.id) none none).db.get_booked_slots
          a.date) ∧
      a.id ∈ ((cancel_appointment env ud db (some a.id) none
        none).db.get_user_appointments uid).map Appointment.id ∧
      (cancel_appointment env ud db (some a.id) none none).resp =
        "I've cancelled your appointment on " ++ env.fmtDt a.dt ++
          ". Anything else?" := by
  intro env ud db uid a hid hmem huser hstat huniq honly hlen
  have hfind : db.get_appointment_by_id a.id uid = some a := by
    apply find_eq_some_of_unique _ _ _ hmem
    · simp [huser]
    · intro b hb hpb
      simp only [Bool.and_eq_true, beq_iff_eq] at hpb
      exact huniq b hb hpb.1
  have hstatB : (a.status == "cancelled") = false := by simpa using hstat
  have hr : cancel_appointment env ud db (some a.id) none none =
      { ud := { ud with
          tracker := ud.tracker.track_appointment_cancelled (toString a.id) },
        db := db.update_appointment_status a.id "cancelled" env.now,
        ops := [StoreOp.get_appointment_by_id a.id uid,
                StoreOp.update_appointment_status a.id "cancelled"],
        resp := "I've cancelled your appointment on " ++ env.fmtDt a.dt ++
          ". Anything else?" } := by
    simp [cancel_appointment, hid, hfind, hstatB]
  simp only [hr]
  have hq : ∀ x : Appointment,
      (((if x.id == a.id then
          { x with status := "cancelled", updatedAt := some env.now }
        else x) : Appointment).userId == uid) = (x.userId == uid) := by
    intro x
    by_cases h : (x.id == a.id) = true <;> simp [h]
  refine ⟨?_, ?_, by first | rfl | trivial⟩
  · intro habs
    obtain ⟨b', hb'mem, hbd, hbt, hbs⟩ :=
      (mem_get_booked_slots (db.update_appointment_status a.id "cancelled" env.now)
        a.date a.time).mp habs
    obtain ⟨b, hb, rfl⟩ := List.mem_map.mp hb'mem
    by_cases hbid : (b.id == a.id) = true
    · rw [if_pos hbid] at hbs
      exact hbs rfl
    · rw [if_neg (by simpa using Bool.eq_false_iff.mpr hbid)] at hbd hbt hbs
      exact honly b hb (by simpa using hbid) ⟨hbd, hbt, hbs⟩
  · have hfilter : ((db.appointments.map (fun x =>
        if x.id == a.id then { x with status := "cancelled", updatedAt := some env.now }
        else x)).filter (fun x => x.userId == uid)) =
        ((db.appointments.filter (fun x => x.userId == uid)).map (fun x =>
          if x.id == a.id then { x with status := "cancelled", updatedAt := some env.now }
          else x)) :=
      filter_map_comm _ _ hq _
    unfold DB.get_user_appointments
    have happts : (db.update_appointment_status a.id "cancelled" env.now).appointments =
        db.appointments.map (fun x =>
          if x.id == a.id then { x with status := "cancelled", updatedAt := some env.now }
          else x) := rfl
    rw [happts, hfilter]
    have hlen2 : (sort_by_dt_desc ((db.appointments.filter
        (fun x => x.userId == uid)).map (fun x =>
          if x.id == a.id then { x with status := "cancelled", updatedAt := some env.now }
          else x))).length ≤ 50 := by
      rw [length_sort_by_dt_desc, List.length_map]
      exact hlen
    rw [List.take_of_length_le hlen2]
    apply List.mem_map.mpr
    refine ⟨{ a with status := "cancelled", updatedAt := some env.now }, ?_, rfl⟩
    apply mem_sort_by_dt_desc.mpr
    apply List.mem_map.mpr
    refine ⟨a, List.mem_filter.mpr ⟨hmem, by simp [huser]⟩, ?_⟩
    rw [if_pos (by simp)]

/-- Witness for C3: cancelling `apptOne` by id removes its slot from the
booked list for 2026-02-05 while its id remains in the user's appointment
list. -/
theorem cancel_appointment_frees_slot_keeps_record_witness :
    let r := cancel_appointment env0 udOne dbOne (some apptOne.id) none none
    (("2026-02-05" ++ " " ++ "15:00") ∉ r.db.get_booked_slots "2026-02-05") ∧
    apptOne.id ∈ (r.db.get_user_appointments 0).map Appointment.id ∧
    r.resp = "I've cancelled your appointment on " ++ env0.fmtDt apptOne.dt ++
      ". Anything else?" :=
  cancel_appointment_frees_slot_keeps_record env0 udOne dbOne 0 apptOne rfl
    (by decide) rfl (by decide) (by decide) (by decide) (by decide)

end VoiceAgent
